import Mathlib

/-!
Verification of the primal-health-solana-program claim workflow
(programs/primal-health-solana-program/src/lib.rs).

The program's instruction handlers are pure field assignments and guarded
mutations, so each handler is embedded as a pure Lean function.  Solana's
runtime applies an instruction transactionally: a handler that returns an
error commits nothing, which the embedding models by returning
`Except.error` carrying no state (the caller's pre-state is the only
observable state on failure).  Account keys (Pubkey) are modelled as Nat,
u64 amounts and lamport balances as Nat (the system transfer is checked,
so no wrap-around arithmetic occurs), i64 timestamps as Int.
-/

abbrev Pubkey := Nat

/-- ClaimStatus enum from lib.rs lines 224-230. -/
inductive ClaimStatus where
  | Pending
  | Verified
  | Paid
  | Rejected
deriving DecidableEq

/-- ErrorCode enum from lib.rs lines 232-240. -/
inductive ErrorCode where
  | Unauthorized
  | InvalidPatient
  | ClaimNotVerified
deriving DecidableEq

/-- Errors an instruction can surface: the program's own ErrorCode, the
Anchor account-already-initialized failure of an `init` constraint, and the
system program's insufficient-lamports transfer failure. -/
inductive ProgramError where
  | custom : ErrorCode → ProgramError
  | alreadyExists : ProgramError
  | insufficientFunds : ProgramError
deriving DecidableEq

/-- PatientAccount from lib.rs lines 192-196. -/
structure PatientAccount where
  authority : Pubkey
  did : String
deriving DecidableEq

/-- ProviderAccount from lib.rs lines 198-203. -/
structure ProviderAccount where
  authority : Pubkey
  did : String
  name : String
deriving DecidableEq

/-- HealthDataAccount from lib.rs lines 205-211. -/
structure HealthDataAccount where
  owner : Pubkey
  data_hash : String
  encrypted_data : String
  timestamp : Int
deriving DecidableEq

/-- ClaimAccount from lib.rs lines 213-222. -/
structure ClaimAccount where
  claim_id : String
  patient : Pubkey
  provider : Pubkey
  health_data_hash : String
  amount : Nat
  status : ClaimStatus
  timestamp : Int
deriving DecidableEq

/-- verify_claim from lib.rs lines 54-65: require that the claim's recorded
provider equals the signing provider's key, then assign the requested
status unconditionally. -/
def verify_claim (claim_account : ClaimAccount) (provider_key : Pubkey)
    (status : ClaimStatus) : Except ProgramError ClaimAccount :=
  if claim_account.provider = provider_key then
    Except.ok { claim_account with status := status }
  else
    Except.error (ProgramError.custom ErrorCode.Unauthorized)

/-- Modelled from the spec: the Ledger Service's atomic value-transfer
primitive (spec sections 6 and 7; in the source it is
anchor_lang::system_program::transfer, lib.rs line 98, whose body lives in
the Solana runtime outside this repository).  It moves exactly `amount`
lamports and fails with InsufficientFunds when the source balance does not
cover the amount. -/
def system_transfer (from_lamports to_lamports amount : Nat) :
    Except ProgramError (Nat × Nat) :=
  if amount ≤ from_lamports then
    Except.ok (from_lamports - amount, to_lamports + amount)
  else
    Except.error ProgramError.insufficientFunds

/-- process_payment from lib.rs lines 67-104: check provider, then patient,
then Verified status, then transfer the claim's amount from the provider's
to the patient's lamport balance and set the status to Paid.  The status
assignment follows the transfer behind the Rust question-mark operator, so
a failed transfer propagates its error before any mutation. -/
def process_payment (claim_account : ClaimAccount)
    (provider_key : Pubkey) (provider_lamports : Nat)
    (patient_key : Pubkey) (patient_lamports : Nat) :
    Except ProgramError (ClaimAccount × Nat × Nat) :=
  if claim_account.provider = provider_key then
    if claim_account.patient = patient_key then
      if claim_account.status = ClaimStatus.Verified then
        match system_transfer provider_lamports patient_lamports
            claim_account.amount with
        | Except.ok (new_provider_lamports, new_patient_lamports) =>
            Except.ok ({ claim_account with status := ClaimStatus.Paid },
              new_provider_lamports, new_patient_lamports)
        | Except.error e => Except.error e
      else
        Except.error (ProgramError.custom ErrorCode.ClaimNotVerified)
    else
      Except.error (ProgramError.custom ErrorCode.InvalidPatient)
  else
    Except.error (ProgramError.custom ErrorCode.Unauthorized)

/-- The ClaimAccount that create_claim (lib.rs lines 37-52) writes: the
given fields, status Pending, and the current ledger timestamp. -/
def create_claim (claim_id : String) (amount : Nat) (health_data_hash : String)
    (patient_key provider_key : Pubkey) (now : Int) : ClaimAccount :=
  { claim_id := claim_id
    patient := patient_key
    provider := provider_key
    health_data_hash := health_data_hash
    amount := amount
    status := ClaimStatus.Pending
    timestamp := now }

/-- Association-list lookup with decidable key equality. -/
def alookup {α : Type} {β : Type} [DecidableEq α] (k : α) :
    List (α × β) → Option β
  | [] => none
  | kv :: rest => if kv.1 = k then some kv.2 else alookup k rest

/-- The persistent account state the program's `init` constraints address:
PatientAccount records keyed by the authority seed, ProviderAccount records
keyed by the authority seed, HealthDataAccount records keyed by the
data-hash seed, ClaimAccount records keyed by the claim-id seed (the
`seeds` attributes at lib.rs lines 114, 130, 146, 162). -/
structure Ledger where
  patients : List (Pubkey × PatientAccount)
  providers : List (Pubkey × ProviderAccount)
  health_records : List (String × HealthDataAccount)
  claims : List (String × ClaimAccount)
deriving DecidableEq

/-- Modelled from the spec: the Anchor `init` constraint of
InitializePatient (lib.rs lines 110-117) fails when the address derived
from seeds [b"patient", authority] already holds an account (spec section
3, idempotent-guarded creation); the enforcement lives in anchor_lang
outside this repository.  On success the handler body (lib.rs lines 9-14)
stores the authority key and the did. -/
def initialize_patient (l : Ledger) (authority : Pubkey) (did : String) :
    Except ProgramError Ledger :=
  match alookup authority l.patients with
  | some _ => Except.error ProgramError.alreadyExists
  | none =>
      Except.ok { l with patients :=
        (authority, { authority := authority, did := did }) :: l.patients }

/-- Modelled from the spec: the Anchor `init` constraint of
InitializeProvider (lib.rs lines 126-133), seeds [b"provider", authority];
on success the handler body (lib.rs lines 16-22) stores authority, did and
name. -/
def initialize_provider (l : Ledger) (authority : Pubkey) (did name : String) :
    Except ProgramError Ledger :=
  match alookup authority l.providers with
  | some _ => Except.error ProgramError.alreadyExists
  | none =>
      Except.ok { l with providers :=
        (authority, { authority := authority, did := did, name := name })
          :: l.providers }

/-- Modelled from the spec: the Anchor `init` constraint of SubmitHealthData
(lib.rs lines 142-148), seeds [b"health_data", data_hash]; on success the
handler body (lib.rs lines 24-35) stores owner, hash, payload and the
ledger timestamp. -/
def submit_health_data (l : Ledger) (owner : Pubkey)
    (data_hash encrypted_data : String) (now : Int) :
    Except ProgramError Ledger :=
  match alookup data_hash l.health_records with
  | some _ => Except.error ProgramError.alreadyExists
  | none =>
      Except.ok { l with health_records :=
        (data_hash,
          { owner := owner
            data_hash := data_hash
            encrypted_data := encrypted_data
            timestamp := now }) :: l.health_records }

/-- create_claim as a ledger operation: the Anchor `init` constraint of
CreateClaim (lib.rs lines 158-165, seeds [b"claim", claim_id], modelled
from the spec like the other `init` guards) plus the handler body of
lib.rs lines 37-52. -/
def create_claim_op (l : Ledger) (claim_id : String) (amount : Nat)
    (health_data_hash : String) (patient_key provider_key : Pubkey)
    (now : Int) : Except ProgramError Ledger :=
  match alookup claim_id l.claims with
  | some _ => Except.error ProgramError.alreadyExists
  | none =>
      Except.ok { l with claims :=
        (claim_id,
          create_claim claim_id amount health_data_hash patient_key
            provider_key now) :: l.claims }

/-- A ledger with no accounts yet. -/
def emptyLedger : Ledger :=
  { patients := [], providers := [], health_records := [], claims := [] }

/-- A concrete claim as created by create_claim: patient key 1, provider
key 2, amount 500. -/
def c1_claim : ClaimAccount := create_claim "c1" 500 "h1" 1 2 0

/-- c1_claim after the provider adjudicates it Verified. -/
def c1_verified : ClaimAccount := { c1_claim with status := ClaimStatus.Verified }

/-- c1_verified after payment settles it Paid. -/
def c1_paid : ClaimAccount := { c1_verified with status := ClaimStatus.Paid }

/-- C1: the spec's forward-only lifecycle (Rejected and Paid terminal) is
broken by the code: starting from a freshly created claim and following the
intended lifecycle to Paid, a further verify_claim call signed by the
recorded provider moves the claim's status back to Pending. -/
theorem verify_claim_regresses_reachable_paid_claim :
    verify_claim c1_claim 2 ClaimStatus.Verified = Except.ok c1_verified ∧
    process_payment c1_verified 2 1000 1 0 = Except.ok (c1_paid, 500, 500) ∧
    c1_paid.status = ClaimStatus.Paid ∧
    verify_claim c1_paid 2 ClaimStatus.Pending =
      Except.ok { c1_paid with status := ClaimStatus.Pending } :=
  ⟨rfl, rfl, rfl, rfl⟩

/-- C6: verify_claim signed by any key other than the claim's recorded
provider fails with Unauthorized; the error return carries no account
state, so the claim is left unchanged. -/
theorem verify_claim_unauthorized (c : ClaimAccount) (pk : Pubkey)
    (s : ClaimStatus) (h : c.provider ≠ pk) :
    verify_claim c pk s = Except.error (ProgramError.custom ErrorCode.Unauthorized) := by
  simp [verify_claim, h]

theorem verify_claim_unauthorized_witness :
    verify_claim c1_paid 99 ClaimStatus.Pending =
      Except.error (ProgramError.custom ErrorCode.Unauthorized) :=
  verify_claim_unauthorized c1_paid 99 ClaimStatus.Pending (by decide)

/-- C7: when the signing provider matches the claim's recorded provider,
verify_claim sets the status to the requested value whatever the current
status is; only the caller's identity is checked, never the current state. -/
theorem verify_claim_sets_requested_status (c : ClaimAccount) (pk : Pubkey)
    (s : ClaimStatus) (h : c.provider = pk) :
    verify_claim c pk s = Except.ok { c with status := s } := by
  simp [verify_claim, h]

theorem verify_claim_sets_requested_status_witness :
    verify_claim c1_paid 2 ClaimStatus.Pending =
      Except.ok { c1_paid with status := ClaimStatus.Pending } :=
  verify_claim_sets_requested_status c1_paid 2 ClaimStatus.Pending rfl

/-- C10: a successful verify_claim changes only the status field; every
other field of the claim is returned unchanged (a failing call returns an
error carrying no state, and the handler touches no account besides the
claim and the read-only signer). -/
theorem verify_claim_frame (c c2 : ClaimAccount) (pk : Pubkey)
    (s : ClaimStatus) (h : verify_claim c pk s = Except.ok c2) :
    c2.claim_id = c.claim_id ∧ c2.patient = c.patient ∧
    c2.provider = c.provider ∧ c2.health_data_hash = c.health_data_hash ∧
    c2.amount = c.amount ∧ c2.timestamp = c.timestamp := by
  unfold verify_claim at h
  by_cases hp : c.provider = pk
  · rw [if_pos hp] at h
    injection h with h2
    subst h2
    exact ⟨rfl, rfl, rfl, rfl, rfl, rfl⟩
  · rw [if_neg hp] at h
    exact Except.noConfusion h

theorem verify_claim_frame_witness :
    c1_verified.claim_id = c1_claim.claim_id ∧
    c1_verified.patient = c1_claim.patient ∧
    c1_verified.provider = c1_claim.provider ∧
    c1_verified.health_data_hash = c1_claim.health_data_hash ∧
    c1_verified.amount = c1_claim.amount ∧
    c1_verified.timestamp = c1_claim.timestamp :=
  verify_claim_frame c1_claim c1_verified 2 ClaimStatus.Verified rfl

/-- C2: on a Verified claim, with the signing provider and the passed
patient account matching the claim's records and the provider's balance
covering the amount, process_payment succeeds, moves exactly the claim's
amount from the provider's to the patient's lamport balance, and sets the
status to Paid. -/
theorem process_payment_success (c : ClaimAccount) (pb qb : Nat)
    (hs : c.status = ClaimStatus.Verified) (hb : c.amount ≤ pb) :
    process_payment c c.provider pb c.patient qb =
      Except.ok ({ c with status := ClaimStatus.Paid },
        pb - c.amount, qb + c.amount) := by
  simp [process_payment, system_transfer, hs, hb]

theorem process_payment_success_witness :
    process_payment c1_verified 2 1000 1 0 = Except.ok (c1_paid, 500, 500) ∧
    c1_verified.status = ClaimStatus.Verified ∧ c1_verified.amount ≤ 1000 :=
  ⟨process_payment_success c1_verified 1000 0 rfl (by decide), rfl, by decide⟩

/-- C3: process_payment fails with Unauthorized whenever the signing
provider differs from the claim's recorded provider (whatever the patient
or status), and with InvalidPatient when the provider matches but the
passed patient account differs from the claim's recorded patient; in both
cases the error return carries no state, so no balance and no claim field
changes. -/
theorem process_payment_identity_checks (c : ClaimAccount) (pk qk : Pubkey)
    (pb qb : Nat) :
    (c.provider ≠ pk →
      process_payment c pk pb qk qb =
        Except.error (ProgramError.custom ErrorCode.Unauthorized)) ∧
    (c.provider = pk → c.patient ≠ qk →
      process_payment c pk pb qk qb =
        Except.error (ProgramError.custom ErrorCode.InvalidPatient)) := by
  constructor
  · intro h
    simp [process_payment, h]
  · intro h1 h2
    simp [process_payment, h1, h2]

theorem process_payment_identity_checks_witness :
    process_payment c1_verified 99 1000 1 0 =
      Except.error (ProgramError.custom ErrorCode.Unauthorized) ∧
    process_payment c1_verified 2 1000 7 0 =
      Except.error (ProgramError.custom ErrorCode.InvalidPatient) :=
  ⟨(process_payment_identity_checks c1_verified 99 1 1000 0).1 (by decide),
   (process_payment_identity_checks c1_verified 2 7 1000 0).2 rfl (by decide)⟩

/-- A Pending claim used to exhibit the C4 counterexample. -/
def c4_pending : ClaimAccount := create_claim "c4" 500 "h1" 1 2 0

/-- C4 counterexample: on a non-Verified claim, process_payment does not
always fail with ClaimNotVerified: called with a provider key (99) that is
not the claim's recorded provider (2), it fails with Unauthorized, because
the provider check precedes the status check. -/
theorem process_payment_unverified_error_depends_on_caller :
    c4_pending.status ≠ ClaimStatus.Verified ∧
    process_payment c4_pending 99 1000 1 0 =
      Except.error (ProgramError.custom ErrorCode.Unauthorized) ∧
    process_payment c4_pending 99 1000 1 0 ≠
      Except.error (ProgramError.custom ErrorCode.ClaimNotVerified) := by
  refine ⟨by decide, rfl, ?_⟩
  intro h
  rw [show process_payment c4_pending 99 1000 1 0 =
      Except.error (ProgramError.custom ErrorCode.Unauthorized) from rfl] at h
  injection h with h2
  injection h2 with h3
  exact ErrorCode.noConfusion h3

/-- C4 amended: on a claim whose status is not Verified, process_payment
called with the claim's recorded provider and patient fails with
ClaimNotVerified, and called with any provider and patient keys it fails
with some error; every failure returns no state, leaving balances and the
claim unchanged. -/
theorem process_payment_unverified_fails (c : ClaimAccount) (pb qb : Nat)
    (h : c.status ≠ ClaimStatus.Verified) :
    process_payment c c.provider pb c.patient qb =
      Except.error (ProgramError.custom ErrorCode.ClaimNotVerified) ∧
    ∀ pk qk pb2 qb2, ∃ e,
      process_payment c pk pb2 qk qb2 = Except.error e := by
  constructor
  · simp [process_payment, h]
  · intro pk qk pb2 qb2
    by_cases h1 : c.provider = pk
    · by_cases h2 : c.patient = qk
      · exact ⟨ProgramError.custom ErrorCode.ClaimNotVerified,
          by simp [process_payment, h, h1, h2]⟩
      · exact ⟨ProgramError.custom ErrorCode.InvalidPatient,
          by simp [process_payment, h1, h2]⟩
    · exact ⟨ProgramError.custom ErrorCode.Unauthorized,
        by simp [process_payment, h1]⟩

theorem process_payment_unverified_fails_witness :
    process_payment c4_pending 2 1000 1 0 =
      Except.error (ProgramError.custom ErrorCode.ClaimNotVerified) :=
  (process_payment_unverified_fails c4_pending 1000 0 (by decide)).1

/-- A Verified claim used to witness the C5 insufficient-funds case. -/
def c5_verified : ClaimAccount :=
  { create_claim "c5" 500 "h1" 1 2 0 with status := ClaimStatus.Verified }

/-- C5: when the provider's balance does not cover the claim's amount, the
transfer fails and process_payment propagates the InsufficientFunds error
before the status assignment (lib.rs line 101 runs only after the transfer
on line 98 succeeds); the error return carries no state, so the claim
stays Verified and neither balance changes. -/
theorem process_payment_insufficient_funds_atomic (c : ClaimAccount)
    (pb qb : Nat) (hs : c.status = ClaimStatus.Verified)
    (hb : pb < c.amount) :
    process_payment c c.provider pb c.patient qb =
      Except.error ProgramError.insufficientFunds := by
  have hb2 : ¬ c.amount ≤ pb := Nat.not_le.mpr hb
  simp [process_payment, system_transfer, hs, hb2]

theorem process_payment_insufficient_funds_atomic_witness :
    process_payment c5_verified 2 100 1 0 =
      Except.error ProgramError.insufficientFunds :=
  process_payment_insufficient_funds_atomic c5_verified 100 0 rfl (by decide)

/-- C8: creation is insertion-only at a deterministic address: after a
successful initialize_patient for an authority and a successful
submit_health_data for a content hash, a second initialize_patient with
the same authority and a second submit_health_data with the same hash both
fail with AlreadyExists, and the records written by the first calls are
still present unchanged. -/
theorem creation_is_insertion_only (l : Ledger) (a o o2 : Pubkey)
    (d d2 hsh p p2 : String) (t t2 : Int)
    (h1 : alookup a l.patients = none)
    (h2 : alookup hsh l.health_records = none) :
    ∃ l2 l3 : Ledger,
      initialize_patient l a d = Except.ok l2 ∧
      submit_health_data l2 o hsh p t = Except.ok l3 ∧
      initialize_patient l3 a d2 = Except.error ProgramError.alreadyExists ∧
      submit_health_data l3 o2 hsh p2 t2 =
        Except.error ProgramError.alreadyExists ∧
      alookup a l3.patients = some { authority := a, did := d } ∧
      alookup hsh l3.health_records = some
        { owner := o
          data_hash := hsh
          encrypted_data := p
          timestamp := t } := by
  refine ⟨{ l with patients :=
      (a, { authority := a, did := d }) :: l.patients },
    { l with
        patients := (a, { authority := a, did := d }) :: l.patients
        health_records := (hsh,
          { owner := o
            data_hash := hsh
            encrypted_data := p
            timestamp := t }) :: l.health_records },
    ?_, ?_, ?_, ?_, ?_, ?_⟩
  · simp [initialize_patient, h1]
  · simp [submit_health_data, h2]
  · simp [initialize_patient, alookup]
  · simp [submit_health_data, alookup]
  · simp [alookup]
  · simp [alookup]

theorem creation_is_insertion_only_witness :
    ∃ l2 l3 : Ledger,
      initialize_patient emptyLedger 1 "did:p1" = Except.ok l2 ∧
      submit_health_data l2 3 "h1" "enc1" 10 = Except.ok l3 ∧
      initialize_patient l3 1 "did:other" =
        Except.error ProgramError.alreadyExists ∧
      submit_health_data l3 4 "h1" "enc2" 11 =
        Except.error ProgramError.alreadyExists ∧
      alookup (1 : Pubkey) l3.patients =
        some { authority := 1, did := "did:p1" } ∧
      alookup "h1" l3.health_records = some
        { owner := 3
          data_hash := "h1"
          encrypted_data := "enc1"
          timestamp := 10 } :=
  creation_is_insertion_only emptyLedger 1 3 4 "did:p1" "did:other"
    "h1" "enc1" "enc2" 10 11 rfl rfl

/-- C9: with a fresh claim_id, create_claim succeeds and stores a claim
with status Pending recording exactly the given patient, provider, hash,
amount and timestamp; nothing in the operation consults the health-record
store or the identity registries, so it succeeds even on a ledger where
the referenced hash and identities do not exist. -/
theorem create_claim_records_pending (l : Ledger) (claim_id : String)
    (amount : Nat) (health_data_hash : String)
    (patient_key provider_key : Pubkey) (now : Int)
    (hfresh : alookup claim_id l.claims = none) :
    create_claim_op l claim_id amount health_data_hash patient_key
        provider_key now =
      Except.ok { l with claims := (claim_id,
        { claim_id := claim_id
          patient := patient_key
          provider := provider_key
          health_data_hash := health_data_hash
          amount := amount
          status := ClaimStatus.Pending
          timestamp := now }) :: l.claims } := by
  simp [create_claim_op, create_claim, hfresh]

theorem create_claim_records_pending_witness :
    create_claim_op emptyLedger "c9" 250 "nohash" 5 6 7 =
      Except.ok { emptyLedger with claims := [("c9",
        { claim_id := "c9"
          patient := 5
          provider := 6
          health_data_hash := "nohash"
          amount := 250
          status := ClaimStatus.Pending
          timestamp := 7 })] } ∧
    alookup "nohash" emptyLedger.health_records = none ∧
    alookup (5 : Pubkey) emptyLedger.patients = none ∧
    alookup (6 : Pubkey) emptyLedger.providers = none :=
  ⟨create_claim_records_pending emptyLedger "c9" 250 "nohash" 5 6 7 rfl,
   rfl, rfl, rfl⟩
